import Mathlib

/-!
Verification development for the aws-ollama-llm-platform request handlers.

The Python sources are shallowly embedded as pure Lean functions:
  * DynamoDB tables become lists of records; reads are pure lookups and
    writes are returned as updated lists.
  * AWS service calls (ECS, ELBv2, CloudWatch Logs) are modelled by
    per-request environment structures recording each call's outcome;
    an outcome of `Except.error`/a `raises` constructor models the call
    raising an exception.
  * Python dictionaries with optional keys become structures with
    `Option` fields; `dict.get` with a default becomes `Option.getD`.
  * HTTP responses become a `Response` structure holding the status
    code, the header list (in source order) and an optional structured
    body mirroring the JSON payload the handler serialises.
-/

namespace AwsOllama

/-- Lexicographic strict order on character lists by code point, mirroring
Python string comparison.  Defined directly so that it reduces in the kernel
(the builtin `String` order uses iterators and does not). -/
def lexLtChars : List Char → List Char → Bool
  | _, [] => false
  | [], _ :: _ => true
  | a :: as, b :: bs =>
    if a.toNat < b.toNat then true
    else if b.toNat < a.toNat then false
    else lexLtChars as bs

/-- Python `s.count(c)` for a single character. -/
def countChar (s : String) (c : Char) : Nat := s.data.count c

/-- Python `s.split(sep)` for a single-character separator. -/
def pathSegs (s : String) : List String :=
  (s.data.splitOn '/').map (fun l => String.mk l)

/-- Python `s.split('/')[-1]` (the split list is never empty). -/
def lastSeg (s : String) : String := (pathSegs s).getLastD ""

/-- Python `s.split('/')[-2]`; in every routing context the path has at
least two segments, so the Python negative index never raises. -/
def penultimateSeg (s : String) : String :=
  let ps := pathSegs s
  ps.getD (ps.length - 2) ""

/-- Python `s.startswith(p)`, computed on the character lists. -/
def strStarts (s p : String) : Bool := p.data.isPrefixOf s.data

/-- Python `s.endswith(p)`, computed on the character lists. -/
def strEnds (s p : String) : Bool := p.data.isSuffixOf s.data

/-- Cognito JWT claims attached to the request context by the gateway.
`groupsRaw` is `claims.get('cognito:groups', '')`: an absent key is the
empty string. -/
structure Claims where
  sub : Option String
  email : Option String
  username : Option String
  groupsRaw : String

/-- Python `groups.split(',') if groups else []`. -/
def parseGroups (raw : String) : List String :=
  if raw = "" then [] else (raw.data.splitOn ',').map (fun l => String.mk l)

/-- Caller identity as built by `get_user_info_from_context` in
`instances.py` / `models.py` (no `username` key there). -/
structure UserInfo where
  user_id : Option String
  email : Option String
  groups : List String

/-- HTTP response: status code, headers in source order, optional JSON body
(`none` models a response dict without a `body` key, as in the 204 case). -/
structure Response (β : Type) where
  statusCode : Nat
  headers : List (String × String)
  body : Option β
  deriving DecidableEq

/-- Header set produced by `create_success_response` / `create_error_response`
in `src/lambda/instances.py` and `src/lambda/models.py`. -/
def apiHeaders : List (String × String) :=
  [("Access-Control-Allow-Origin", "*"),
   ("Access-Control-Allow-Headers", "Content-Type,Authorization"),
   ("Access-Control-Allow-Methods", "GET,POST,PUT,DELETE,OPTIONS"),
   ("Content-Type", "application/json")]

/-- One row of the instances DynamoDB table as written by
`models.py start_model` and read by both `models.py` and `instances.py`.
Optional fields model keys that a given writer may omit. -/
structure InstanceRec where
  instance_id : String
  model_id : String
  user_id : Option String
  service_name : Option String
  ecs_service_arn : Option String
  target_group_arn : Option String
  task_definition_arn : Option String
  status : String
  instance_type : String
  endpoint_url : String
  custom_name : String
  created_at : String
  ttl : Option Nat
  stopped_at : Option String
  last_status_update : Option String
  real_time_status : Option String
  deriving DecidableEq

/-- Live ECS service description as returned by `ecs.describe_services`
(the fields this code reads). -/
structure EcsService where
  status : String
  desiredCount : Nat
  runningCount : Nat
  pendingCount : Nat
  serviceArn : Option String
  taskDefinition : Option String
  platformVersion : Option String
  launchType : Option String
  createdAt : Option String
  deriving DecidableEq

/-- Outcome of a `describe_services` call keyed by service name:
the call may raise, return an empty `services` list (`ok none`), or
return one service description. -/
inductive EcsDescribe where
  | raises
  | ok (svc : Option EcsService)
  deriving DecidableEq

end AwsOllama

namespace AwsOllama.InstancesFn

open AwsOllama

/-- One CloudWatch log event as read from `get_log_events`.  The code
renders `event['timestamp']` (epoch milliseconds) as an ISO-8601 UTC string
and sorts on that string; ISO-8601 UTC strings compare lexicographically in
timestamp order, so the embedding keeps the millisecond value. -/
structure LogEvent where
  timestamp : Nat
  message : String
  deriving DecidableEq

/-- One log stream returned by `describe_log_streams` together with the
outcome of the `get_log_events` call on it (which may raise and is then
logged and skipped). -/
structure LogStream where
  logStreamName : String
  eventsOutcome : Except Unit (List LogEvent)

/-- Outcome of the `describe_log_streams` call: the log group may not exist
(`ResourceNotFoundException`), the call may raise some other exception, or
it returns the stream list (newest first, at most 5, per the request
parameters). -/
inductive StreamsOutcome where
  | notFoundExc
  | otherExc
  | ok (streams : List LogStream)

/-- One entry of the `logs` array built by `get_instance_logs`. -/
structure LogEntry where
  timestamp : Nat
  message : String
  stream : String
  deriving DecidableEq

/-- ECS service details dict built by `get_ecs_service_details`: empty when
the record has no service name, an error dict when the service is missing
or the call raised, else the projected description. -/
inductive Details where
  | emptyD
  | errD (msg : String)
  | infoD (svc : EcsService)
  deriving DecidableEq

/-- The `status_info` dict built by `get_instance_status`. -/
structure StatusInfo where
  instance_id : String
  stored_status : String
  real_time_status : String
  service_details : Details
  last_updated : String
  deriving DecidableEq

/-- JSON bodies produced by `src/lambda/instances.py`.  Optional fields of
`logsB` model keys present only on some branches. -/
inductive Body where
  | errorB (message : String)
  | listB (instances : List InstanceRec) (count : Nat) (userFilter : String)
  | instanceB (inst : InstanceRec) (details : Details)
  | logsB (entries : List LogEntry) (instance_id : String)
      (log_group : Option String) (streamPfx : Option String)
      (message : Option String)
  | statusB (info : StatusInfo)
  deriving DecidableEq

/-- Per-request environment for `instances.py`: outcomes of the AWS calls
the request may issue, plus the relevant environment variables. -/
structure Env where
  describeService : String → EcsDescribe
  streamsOutcome : StreamsOutcome
  statusUpdateRaises : Bool
  envName : String
  now : String

/-- Incoming API Gateway event (the fields this handler reads).  `httpMethod`
and `path` are `Option` because `event['httpMethod']` raises `KeyError` when
absent, which the outermost handler converts to a 500. -/
structure Event where
  httpMethod : Option String
  path : Option String
  claims : Claims

/-- `create_success_response` of `instances.py`. -/
def create_success_response (data : Body) (status_code : Nat) : Response Body :=
  { statusCode := status_code, headers := apiHeaders, body := some data }

/-- `create_error_response` of `instances.py`. -/
def create_error_response (status_code : Nat) (message : String) : Response Body :=
  { statusCode := status_code, headers := apiHeaders,
    body := some (Body.errorB message) }

/-- `get_user_info_from_context` of `instances.py`. -/
def get_user_info_from_context (event : Event) : UserInfo :=
  { user_id := event.claims.sub
    email := event.claims.email
    groups := parseGroups event.claims.groupsRaw }

/-- `get_ecs_service_status`: real-time status of the backing ECS service.
Missing handles or a raising describe call fall back to the stored status
(the record always carries a `status` key, so the Python
`instance.get('status', 'unknown')` default is never taken). -/
def get_ecs_service_status (env : Env) (inst : InstanceRec) : String :=
  match inst.service_name, inst.ecs_service_arn with
  | some sname, some _ =>
    match env.describeService sname with
    | EcsDescribe.raises => inst.status
    | EcsDescribe.ok none => "stopped"
    | EcsDescribe.ok (some svc) =>
      if svc.status = "ACTIVE" then
        if svc.desiredCount = 0 then "stopped"
        else if svc.runningCount = svc.desiredCount then "running"
        else if svc.runningCount > 0 then "starting"
        else "pending"
      else if svc.status = "DRAINING" then "stopping"
      else "unknown"
  | _, _ => inst.status

/-- `get_ecs_service_details`: detail dict for the backing service; the
error message of a raised call is abstracted to a fixed tag. -/
def get_ecs_service_details (env : Env) (inst : InstanceRec) : Details :=
  match inst.service_name with
  | none => Details.emptyD
  | some sname =>
    match env.describeService sname with
    | EcsDescribe.raises => Details.errD "exception"
    | EcsDescribe.ok none => Details.errD "Service not found"
    | EcsDescribe.ok (some svc) => Details.infoD svc

/-- Best-effort enrichment applied to each listed instance:
`instance['real_time_status'] = get_ecs_service_status(instance)`
(the embedded status function is total, so the per-item `except` fallback
in the source is never taken). -/
def enrich (env : Env) (inst : InstanceRec) : InstanceRec :=
  { inst with real_time_status := some (get_ecs_service_status env inst) }

/-- Sort predicate for `instances.sort(key=..created_at.., reverse=True)`:
keep `a` before `b` when `a.created_at` is not strictly below `b`. -/
def descCreatedLe (a b : InstanceRec) : Bool :=
  !(lexLtChars a.created_at.data b.created_at.data)

/-- The instance list a caller receives from `list_instances`:
administrators see the whole table scan, others the `UserIdIndex` query
for their own user id; sorted newest first, then enriched. -/
def listedInstances (env : Env) (table : List InstanceRec) (user : UserInfo) :
    List InstanceRec :=
  let items :=
    if "Administrators" ∈ user.groups then table
    else table.filter (fun r => r.user_id = user.user_id)
  (items.mergeSort descCreatedLe).map (enrich env)

/-- `list_instances` of `instances.py`. -/
def list_instances (env : Env) (table : List InstanceRec) (user : UserInfo) :
    Response Body :=
  let items := listedInstances env table user
  create_success_response
    (Body.listB items items.length
      (if "Administrators" ∈ user.groups then "all" else "own")) 200

/-- `get_instance` of `instances.py`: 404 when absent, 403 for a caller who
is neither owner nor administrator, else the enriched record. -/
def get_instance (env : Env) (table : List InstanceRec) (instance_id : String)
    (user : UserInfo) : Response Body :=
  match table.find? (fun r => r.instance_id = instance_id) with
  | none => create_error_response 404 "Instance not found"
  | some inst =>
    if inst.user_id ≠ user.user_id ∧ "Administrators" ∉ user.groups then
      create_error_response 403 "Access denied"
    else
      create_success_response
        (Body.instanceB (enrich env inst) (get_ecs_service_details env inst)) 200

/-- The flat event list collected from the returned streams, in stream
order; a stream whose `get_log_events` raised is logged and skipped. -/
def collectLogs (streams : List LogStream) : List LogEntry :=
  streams.foldl
    (fun acc s =>
      match s.eventsOutcome with
      | Except.error _ => acc
      | Except.ok evs =>
        acc ++ evs.map (fun e => LogEntry.mk e.timestamp e.message s.logStreamName))
    []

/-- Sort predicate for `logs.sort(key=..timestamp.., reverse=True)`. -/
def logDescLe (a b : LogEntry) : Bool := decide (b.timestamp ≤ a.timestamp)

/-- `get_instance_logs` of `instances.py`. -/
def get_instance_logs (env : Env) (table : List InstanceRec)
    (instance_id : String) (user : UserInfo) : Response Body :=
  match table.find? (fun r => r.instance_id = instance_id) with
  | none => create_error_response 404 "Instance not found"
  | some inst =>
    if inst.user_id ≠ user.user_id ∧ "Administrators" ∉ user.groups then
      create_error_response 403 "Access denied"
    else
      let log_group_name := "/ecs/" ++ env.envName ++ "-ollama"
      let streamPfx := "ollama-" ++ instance_id.take 8
      match env.streamsOutcome with
      | StreamsOutcome.notFoundExc =>
        create_success_response
          (Body.logsB [] instance_id none none (some "No logs available yet")) 200
      | StreamsOutcome.otherExc =>
        create_error_response 500 "Failed to retrieve logs"
      | StreamsOutcome.ok streams =>
        let logs := (collectLogs streams).mergeSort logDescLe
        create_success_response
          (Body.logsB (logs.take 100) instance_id (some log_group_name)
            (some streamPfx) none) 200

/-- `get_instance_status` of `instances.py`: returns the response and the
possibly status-reconciled table (a raising `update_item` is logged and
leaves the table unchanged). -/
def get_instance_status (env : Env) (table : List InstanceRec)
    (instance_id : String) (user : UserInfo) :
    Response Body × List InstanceRec :=
  match table.find? (fun r => r.instance_id = instance_id) with
  | none => (create_error_response 404 "Instance not found", table)
  | some inst =>
    if inst.user_id ≠ user.user_id ∧ "Administrators" ∉ user.groups then
      (create_error_response 403 "Access denied", table)
    else
      let rts := get_ecs_service_status env inst
      let info : StatusInfo :=
        { instance_id := instance_id, stored_status := inst.status
          real_time_status := rts
          service_details := get_ecs_service_details env inst
          last_updated := env.now }
      let table' :=
        if rts ≠ inst.status then
          if env.statusUpdateRaises then table
          else table.map (fun r =>
            if r.instance_id = instance_id then
              { r with status := rts, last_status_update := some env.now }
            else r)
        else table
      (create_success_response (Body.statusB info) 200, table')

/-- `lambda_handler` of `instances.py`: route dispatch under the outermost
try/except; a missing `httpMethod` or `path` key raises `KeyError`, which
the handler converts to a uniform 500. -/
def lambda_handler (env : Env) (table : List InstanceRec) (event : Event) :
    Response Body × List InstanceRec :=
  match event.httpMethod, event.path with
  | some m, some p =>
    let user := get_user_info_from_context event
    if p = "/instances" ∧ m = "GET" then
      (list_instances env table user, table)
    else if strStarts p "/instances/" ∧ ¬(countChar p '/' > 2) ∧ m = "GET" then
      (get_instance env table (lastSeg p) user, table)
    else if strEnds p "/logs" ∧ m = "GET" then
      (get_instance_logs env table (penultimateSeg p) user, table)
    else if strEnds p "/status" ∧ m = "GET" then
      get_instance_status env table (penultimateSeg p) user
    else
      (create_error_response 404 "Not found", table)
  | _, _ => (create_error_response 500 "Internal server error", table)

end AwsOllama.InstancesFn

namespace AwsOllama.ModelsFn

open AwsOllama

/-- One row of the models DynamoDB table (the fields `models.py` reads;
resource-requirement fields only feed the task-definition registration
call, which is modelled by its outcome in `Env`). -/
structure ModelRec where
  model_id : String
  model_name : String
  is_active : Bool
  deriving DecidableEq

/-- Parsed JSON body of a `POST /models/start` request; `Option` fields
model `body.get(...)` on possibly absent keys. -/
structure StartBody where
  model_id : Option String
  instance_type : Option String
  name : Option String
  deriving DecidableEq

/-- JSON bodies produced by `src/lambda/models.py`. -/
inductive Body where
  | errorB (message : String)
  | modelsB (models : List ModelRec) (count : Nat)
  | startedB (instance_id service_name status endpoint_url
      estimated_ready_time : String)
  | stoppedB (instance_id status : String)
  deriving DecidableEq

/-- Per-request environment for `models.py`: outcomes of the AWS calls a
request may issue (an `Except.error` models the call raising), the
generated instance id, clock readings, and environment variables.
`queryRaises` models the instance-count query inside
`check_user_instance_limits` raising. -/
structure Env where
  queryRaises : Bool
  maxInstances : Nat
  taskDefOutcome : Except Unit String
  targetGroupOutcome : Except Unit String
  createServiceOutcome : Except Unit String
  newInstanceId : String
  now : String
  nowEpoch : Nat
  domain : String
  envName : String
  ecsUpdateRaises : Bool
  ecsDeleteRaises : Bool
  tgDeleteRaises : Bool

/-- Incoming event for the models handler; `startBody` is the outcome of
`json.loads(event['body'])` on the start route (an absent or malformed
body raises, which `start_model` converts to its own 500). -/
structure Event where
  httpMethod : Option String
  path : Option String
  claims : Claims
  startBody : Except Unit StartBody

/-- `create_success_response` of `models.py`. -/
def create_success_response (data : Body) (status_code : Nat) : Response Body :=
  { statusCode := status_code, headers := apiHeaders, body := some data }

/-- `create_error_response` of `models.py`. -/
def create_error_response (status_code : Nat) (message : String) : Response Body :=
  { statusCode := status_code, headers := apiHeaders,
    body := some (Body.errorB message) }

/-- `get_user_info_from_context` of `models.py`. -/
def get_user_info_from_context (event : Event) : UserInfo :=
  { user_id := event.claims.sub
    email := event.claims.email
    groups := parseGroups event.claims.groupsRaw }

/-- Sort predicate for `models.sort(key=..model_name..)` (ascending). -/
def ascNameLe (a b : ModelRec) : Bool :=
  !(lexLtChars b.model_name.data a.model_name.data)

/-- `list_models` of `models.py`: active models, sorted by name. -/
def list_models (models : List ModelRec) : Response Body :=
  let ms := (models.filter (fun mr => mr.is_active)).mergeSort ascNameLe
  create_success_response (Body.modelsB ms ms.length) 200

/-- The caller's instances with status `running` or `starting`, as selected
by the `UserIdIndex` query with the status filter inside
`check_user_instance_limits`. -/
def active_owned (table : List InstanceRec) (uid : Option String) :
    List InstanceRec :=
  table.filter
    (fun r => r.user_id = uid ∧ (r.status = "running" ∨ r.status = "starting"))

/-- `check_user_instance_limits`: true when the caller may create another
instance.  A raising store query is caught and reported as `False`
(the limit check fails closed). -/
def check_user_instance_limits (env : Env) (table : List InstanceRec)
    (uid : Option String) : Bool :=
  if env.queryRaises then false
  else (active_owned table uid).length < env.maxInstances

/-- Result of `start_model`: the response, the resulting instances table,
and which provisioning calls were issued (task-definition registration,
target-group creation, service creation). -/
structure StartOutcome where
  resp : Response Body
  instances : List InstanceRec
  taskDefCalled : Bool
  targetGroupCalled : Bool
  createServiceCalled : Bool
  deriving DecidableEq

/-- `start_model` of `models.py`.  Any raise inside the body is caught by
the function's own try/except and converted to a 500; the store write of
the new record is modelled as succeeding. -/
def start_model (env : Env) (models : List ModelRec)
    (instances : List InstanceRec) (body : Except Unit StartBody)
    (user : UserInfo) : StartOutcome :=
  match body with
  | Except.error _ =>
    ⟨create_error_response 500 "Failed to start model", instances,
      false, false, false⟩
  | Except.ok b =>
    match b.model_id with
    | none =>
      ⟨create_error_response 400 "model_id is required", instances,
        false, false, false⟩
    | some model_id =>
      match models.find? (fun mr => mr.model_id = model_id) with
      | none =>
        ⟨create_error_response 404 "Model not found", instances,
          false, false, false⟩
      | some _model =>
        if ¬ check_user_instance_limits env instances user.user_id then
          ⟨create_error_response 429 "Instance limit exceeded", instances,
            false, false, false⟩
        else
          let service_name := "ollama-" ++ env.newInstanceId.take 8
          match env.taskDefOutcome with
          | Except.error _ =>
            ⟨create_error_response 500 "Failed to start model", instances,
              true, false, false⟩
          | Except.ok task_definition_arn =>
            match env.targetGroupOutcome with
            | Except.error _ =>
              ⟨create_error_response 500 "Failed to start model", instances,
                true, true, false⟩
            | Except.ok target_group_arn =>
              match env.createServiceOutcome with
              | Except.error _ =>
                ⟨create_error_response 500 "Failed to start model", instances,
                  true, true, true⟩
              | Except.ok ecs_service_arn =>
                let endpoint_url :=
                  "https://ollama-" ++ env.newInstanceId.take 8 ++ "." ++ env.domain
                let newRec : InstanceRec :=
                  { instance_id := env.newInstanceId
                    model_id := model_id
                    user_id := user.user_id
                    service_name := some service_name
                    ecs_service_arn := some ecs_service_arn
                    target_group_arn := some target_group_arn
                    task_definition_arn := some task_definition_arn
                    status := "starting"
                    instance_type := b.instance_type.getD "fargate"
                    endpoint_url := endpoint_url
                    custom_name := b.name.getD ""
                    created_at := env.now
                    ttl := some (env.nowEpoch + 24 * 3600)
                    stopped_at := none
                    last_status_update := none
                    real_time_status := none }
                ⟨create_success_response
                    (Body.startedB env.newInstanceId service_name "starting"
                      endpoint_url "2-5 minutes") 201,
                  instances ++ [newRec], true, true, true⟩

/-- `stop_model` of `models.py`: 404 when absent, 403 for a caller who is
neither owner nor administrator; otherwise the ECS service update/delete
and the target-group delete are issued best-effort (their raises —
`ecsUpdateRaises`, `ecsDeleteRaises`, `tgDeleteRaises` in `Env` — are
caught and logged, influencing nothing), the record is re-marked
`stopped` with a stop timestamp, and the call succeeds. -/
def stop_model (env : Env) (table : List InstanceRec) (instance_id : String)
    (user : UserInfo) : Response Body × List InstanceRec :=
  match table.find? (fun r => r.instance_id = instance_id) with
  | none => (create_error_response 404 "Instance not found", table)
  | some inst =>
    if inst.user_id ≠ user.user_id ∧ "Administrators" ∉ user.groups then
      (create_error_response 403 "Access denied", table)
    else
      let table' := table.map (fun r =>
        if r.instance_id = instance_id then
          { r with status := "stopped", stopped_at := some env.now }
        else r)
      (create_success_response (Body.stoppedB instance_id "stopped") 200, table')

/-- `lambda_handler` of `models.py`: route dispatch under the outermost
try/except. -/
def lambda_handler (env : Env) (models : List ModelRec)
    (instances : List InstanceRec) (event : Event) :
    Response Body × List InstanceRec :=
  match event.httpMethod, event.path with
  | some m, some p =>
    let user := get_user_info_from_context event
    if p = "/models" ∧ m = "GET" then
      (list_models models, instances)
    else if p = "/models/start" ∧ m = "POST" then
      let out := start_model env models instances event.startBody user
      (out.resp, out.instances)
    else if strStarts p "/models/" ∧ strEnds p "/stop" ∧ m = "DELETE" then
      stop_model env instances (penultimateSeg p) user
    else
      (create_error_response 404 "Not found", instances)
  | _, _ => (create_error_response 500 "Internal server error", instances)

end AwsOllama.ModelsFn

namespace AwsOllama.TasksFn

open AwsOllama

/-- Caller identity as built by `get_user_info_from_context` in
`lambda-functions/instances/lambda_function.py` (this variant also keeps
the Cognito username). -/
structure TUserInfo where
  user_id : Option String
  email : Option String
  username : Option String
  groups : List String

/-- One row of the models table for this variant (keyed by `id`). -/
structure TaskModelRec where
  id : String
  name : String
  ollama_model_name : Option String
  deriving DecidableEq

/-- One row of the instances table for this variant (task-based records,
keyed by `id`). -/
structure TaskInstanceRec where
  id : String
  user_id : Option String
  model_id : String
  model_name : String
  status : String
  instance_type : String
  task_arn : Option String
  created_at : String
  updated_at : String
  estimated_cost : String
  endpoint : String
  deriving DecidableEq

/-- Parsed JSON body of a `POST /instances` request. -/
structure CreateBody where
  modelId : Option String
  instanceType : Option String
  deriving DecidableEq

/-- Projection of a record returned by this variant's `list_instances`. -/
structure TaskInstView where
  id : String
  modelId : String
  modelName : String
  status : String
  instanceType : String
  estimatedCost : String
  endpoint : String
  startedAt : String
  deriving DecidableEq

/-- JSON bodies produced by `lambda_function.py`; its 500 envelopes carry
both an `error` and a `message` key. -/
inductive Body where
  | errorB (error : String)
  | errorMsgB (error : String) (message : String)
  | createdB (id modelId modelName status instanceType estimatedCost
      endpoint startedAt : String)
  | listB (items : List TaskInstView)
  | detailB (id modelId modelName status instanceType estimatedCost
      endpoint startedAt updatedAt : String)
  deriving DecidableEq

/-- Outcome of a `describe_tasks` call keyed by task ARN: the call may
raise, return an empty `tasks` list, or return one task whose
`lastStatus` (default empty string) is recorded. -/
inductive TaskDescribe where
  | raises
  | noTasks
  | ok (lastStatus : String)
  deriving DecidableEq

/-- Static environment consumed by `get_task_configuration`: the per-model
ECR image URI variables and the two task-definition ARNs. -/
structure TaskEnv where
  llama2_7b_image : Option String
  llama2_13b_image : Option String
  codellama_7b_image : Option String
  codellama_13b_image : Option String
  mistral_7b_image : Option String
  cpuTaskDefArn : String
  gpuTaskDefArn : String

/-- Per-request environment for `lambda_function.py`.  The `Except` error
payload of `runTaskOutcome` is the exception text (`str(e)`), covering
both a raising `run_task` and an empty `tasks` reply, which the code turns
into its own raise. -/
structure Env where
  taskEnv : TaskEnv
  runTaskOutcome : Except String String
  describeTask : String → TaskDescribe
  stopTaskRaises : Bool
  newInstanceId : String
  now : String
  domain : String

/-- Incoming event; `createBody` is the outcome of
`json.loads(event['body'])`, its error payload the exception text. -/
structure Event where
  httpMethod : Option String
  path : Option String
  claims : Claims
  createBody : Except String CreateBody

/-- `cors_headers` of `lambda_function.py`. -/
def cors_headers : List (String × String) :=
  [("Content-Type", "application/json"),
   ("Access-Control-Allow-Origin", "*"),
   ("Access-Control-Allow-Headers", "Content-Type,Authorization"),
   ("Access-Control-Allow-Methods", "GET,POST,DELETE,OPTIONS")]

/-- A response of this variant carrying a JSON body. -/
def respond (status : Nat) (b : Body) : Response Body :=
  { statusCode := status, headers := cors_headers, body := some b }

/-- `get_user_info_from_context` of `lambda_function.py`. -/
def get_user_info_from_context (event : Event) : TUserInfo :=
  { user_id := event.claims.sub
    email := event.claims.email
    username := event.claims.username
    groups := parseGroups event.claims.groupsRaw }

/-- The `model_images` dict of `get_task_configuration`: `dict.get` on an
unknown model id is `None`. -/
def model_images (env : TaskEnv) (model_id : String) : Option String :=
  if model_id = "llama2:7b" then env.llama2_7b_image
  else if model_id = "llama2:13b" then env.llama2_13b_image
  else if model_id = "codellama:7b" then env.codellama_7b_image
  else if model_id = "codellama:13b" then env.codellama_13b_image
  else if model_id = "mistral:7b" then env.mistral_7b_image
  else none

/-- `gpu_instance_types` of `get_task_configuration`. -/
def gpu_instance_types : List String :=
  ["ml.g4dn.xlarge", "ml.g4dn.2xlarge", "ml.p3.2xlarge"]

/-- `large_cpu_types` of `get_task_configuration`. -/
def large_cpu_types : List String :=
  ["ml.m5.2xlarge", "ml.m5.4xlarge", "ml.c5.4xlarge"]

/-- An ECS placement constraint dict. -/
structure PlacementConstraint where
  ctype : String
  expression : String
  deriving DecidableEq

/-- The deployment configuration dict built by `get_task_configuration`;
`placement_constraints` is `none` when the key is absent. -/
structure TaskConfig where
  container_image : Option String
  launch_type : String
  task_definition : String
  placement_constraints : Option (List PlacementConstraint)
  deriving DecidableEq

/-- `get_task_configuration` of `lambda_function.py`: start from the
default Fargate/CPU configuration and update it for the GPU and large-CPU
instance-type classes. -/
def get_task_configuration (env : TaskEnv) (model_id instance_type : String) :
    TaskConfig :=
  let config : TaskConfig :=
    { container_image := model_images env model_id
      launch_type := "FARGATE"
      task_definition := env.cpuTaskDefArn
      placement_constraints := none }
  if instance_type ∈ gpu_instance_types then
    { config with
        launch_type := "EC2"
        task_definition := env.gpuTaskDefArn
        placement_constraints := some
          [{ ctype := "memberOf"
             expression := "attribute:ecs.instance-type == " ++ instance_type }] }
  else if instance_type ∈ large_cpu_types then
    { config with
        launch_type := "EC2"
        placement_constraints := some
          [{ ctype := "memberOf"
             expression := "attribute:ecs.instance-type == " ++ instance_type }] }
  else config

/-- `get_estimated_cost` of `lambda_function.py`: static per-size rate
table with a zero-cost default for unknown sizes. -/
def get_estimated_cost (instance_type : String) : String :=
  if instance_type = "ml.m5.large" then "$0.12/hour"
  else if instance_type = "ml.m5.xlarge" then "$0.24/hour"
  else if instance_type = "ml.m5.2xlarge" then "$0.48/hour"
  else if instance_type = "ml.g4dn.xlarge" then "$0.71/hour"
  else if instance_type = "ml.g4dn.2xlarge" then "$1.42/hour"
  else if instance_type = "ml.p3.2xlarge" then "$3.06/hour"
  else "$0.00/hour"

/-- Python `s.lower()`, computed on the character list. -/
def lowerStr (s : String) : String := String.mk (s.data.map Char.toLower)

/-- The `status_mapping` dict lookup of `get_ecs_task_status` with its
`unknown` default. -/
def status_mapping (s : String) : String :=
  if s = "pending" then "starting"
  else if s = "running" then "running"
  else if s = "stopping" then "stopping"
  else if s = "stopped" then "stopped"
  else "unknown"

/-- `get_ecs_task_status` of `lambda_function.py`. -/
def get_ecs_task_status (env : Env) (task_arn : String) : String :=
  match env.describeTask task_arn with
  | TaskDescribe.raises => "unknown"
  | TaskDescribe.noTasks => "stopped"
  | TaskDescribe.ok lastStatus => status_mapping (lowerStr lastStatus)

/-- Result of `create_instance`: the response, the resulting instances
table, and whether a `run_task` provisioning call was issued. -/
structure CreateOutcome where
  resp : Response Body
  instances : List TaskInstanceRec
  runTaskCalled : Bool
  deriving DecidableEq

/-- `create_instance` of `lambda_function.py`.  Note: this variant performs
no per-user instance-count limit check — a valid request always proceeds
to provisioning.  The inner `start_ecs_task` builds the configuration via
`get_task_configuration` and issues `run_task`, whose outcome is
`env.runTaskOutcome`; a raise is caught by the function's try/except and
converted to a 500. -/
def create_instance (env : Env) (models : List TaskModelRec)
    (instances : List TaskInstanceRec) (body : Except String CreateBody)
    (user : TUserInfo) : CreateOutcome :=
  match body with
  | Except.error e =>
    ⟨respond 500 (Body.errorMsgB "Failed to create instance" e),
      instances, false⟩
  | Except.ok b =>
    let instance_type := b.instanceType.getD "ml.m5.large"
    match b.modelId with
    | none =>
      ⟨respond 400 (Body.errorB "modelId is required"), instances, false⟩
    | some model_id =>
      match models.find? (fun mr => mr.id = model_id) with
      | none =>
        ⟨respond 404 (Body.errorB "Model not found"), instances, false⟩
      | some model_info =>
        match env.runTaskOutcome with
        | Except.error e =>
          ⟨respond 500 (Body.errorMsgB "Failed to create instance" e),
            instances, true⟩
        | Except.ok task_arn =>
          let endpoint :=
            "https://" ++ env.newInstanceId ++ "." ++ env.domain ++ "/api"
          let cost := get_estimated_cost instance_type
          let item : TaskInstanceRec :=
            { id := env.newInstanceId
              user_id := user.user_id
              model_id := model_id
              model_name := model_info.name
              status := "starting"
              instance_type := instance_type
              task_arn := some task_arn
              created_at := env.now
              updated_at := env.now
              estimated_cost := cost
              endpoint := endpoint }
          ⟨respond 201
              (Body.createdB env.newInstanceId model_id model_info.name
                "starting" instance_type cost endpoint env.now),
            instances ++ [item], true⟩

/-- `delete_instance` of `lambda_function.py`: 404 when absent, 403 for a
caller who is neither owner nor administrator; the `stop_task` call is
best-effort (a raise — `env.stopTaskRaises` — is caught and logged), the
record is deleted, and a body-less 204 is returned. -/
def delete_instance (env : Env) (instances : List TaskInstanceRec)
    (instance_id : String) (user : TUserInfo) :
    Response Body × List TaskInstanceRec :=
  match instances.find? (fun r => r.id = instance_id) with
  | none => (respond 404 (Body.errorB "Instance not found"), instances)
  | some inst =>
    if inst.user_id ≠ user.user_id ∧ "Administrators" ∉ user.groups then
      (respond 403 (Body.errorB "Access denied"), instances)
    else
      ({ statusCode := 204, headers := cors_headers, body := none },
        instances.filter (fun r => ¬ (r.id = instance_id)))

/-- Projection applied to each listed record. -/
def toView (r : TaskInstanceRec) : TaskInstView :=
  { id := r.id, modelId := r.model_id, modelName := r.model_name
    status := r.status, instanceType := r.instance_type
    estimatedCost := r.estimated_cost, endpoint := r.endpoint
    startedAt := r.created_at }

/-- `list_instances` of `lambda_function.py`: administrators scan the whole
table, others a scan filtered to their own records; no sorting, no
enrichment. -/
def list_instances (instances : List TaskInstanceRec) (user : TUserInfo) :
    Response Body :=
  let items :=
    if "Administrators" ∈ user.groups then instances
    else instances.filter (fun r => r.user_id = user.user_id)
  respond 200 (Body.listB (items.map toView))

/-- `get_instance` of `lambda_function.py`: 404 / 403 checks, then a
status reconciliation against the live task when the record holds a task
ARN (the store write also refreshes `updated_at`, while the response body
keeps the previously stored `updated_at`, exactly as the source does). -/
def get_instance (env : Env) (instances : List TaskInstanceRec)
    (instance_id : String) (user : TUserInfo) :
    Response Body × List TaskInstanceRec :=
  match instances.find? (fun r => r.id = instance_id) with
  | none => (respond 404 (Body.errorB "Instance not found"), instances)
  | some inst =>
    if inst.user_id ≠ user.user_id ∧ "Administrators" ∉ user.groups then
      (respond 403 (Body.errorB "Access denied"), instances)
    else
      let (status', table') :=
        match inst.task_arn with
        | none => (inst.status, instances)
        | some arn =>
          let current := get_ecs_task_status env arn
          if current ≠ inst.status then
            (current,
              instances.map (fun r =>
                if r.id = instance_id then
                  { r with status := current, updated_at := env.now }
                else r))
          else (inst.status, instances)
      (respond 200
          (Body.detailB inst.id inst.model_id inst.model_name status'
            inst.instance_type inst.estimated_cost inst.endpoint
            inst.created_at inst.updated_at),
        table')

/-- `lambda_handler` of `lambda_function.py`: route dispatch under the
outermost try/except; a missing `httpMethod`/`path` key raises `KeyError`,
whose text becomes the `message` of the 500 envelope. -/
def lambda_handler (env : Env) (models : List TaskModelRec)
    (instances : List TaskInstanceRec) (event : Event) :
    Response Body × List TaskInstanceRec :=
  match event.httpMethod, event.path with
  | some m, some p =>
    let user := get_user_info_from_context event
    if p = "/instances" ∧ m = "GET" then
      (list_instances instances user, instances)
    else if p = "/instances" ∧ m = "POST" then
      let out := create_instance env models instances event.createBody user
      (out.resp, out.instances)
    else if strStarts p "/instances/" ∧ m = "DELETE" then
      delete_instance env instances (lastSeg p) user
    else if strStarts p "/instances/" ∧ m = "GET" then
      get_instance env instances (lastSeg p) user
    else
      (respond 404 (Body.errorB "Not found"), instances)
  | none, _ =>
    (respond 500 (Body.errorMsgB "Internal server error" "httpMethod"),
      instances)
  | some _, none =>
    (respond 500 (Body.errorMsgB "Internal server error" "path"), instances)

end AwsOllama.TasksFn

namespace AwsOllama

/-- C1: for a reconciliation of a scalable-service handle whose live
lifecycle state is ACTIVE, the resolved status is determined by the
desired and running replica counts as the spec's four cases state. -/
theorem c1_status_pure_function
    (env : InstancesFn.Env) (inst : InstanceRec) (sname arn : String)
    (svc : EcsService)
    (hs : inst.service_name = some sname)
    (ha : inst.ecs_service_arn = some arn)
    (hd : env.describeService sname = EcsDescribe.ok (some svc))
    (hactive : svc.status = "ACTIVE") :
    (svc.desiredCount = 0 →
      InstancesFn.get_ecs_service_status env inst = "stopped") ∧
    (0 < svc.desiredCount → svc.runningCount = svc.desiredCount →
      InstancesFn.get_ecs_service_status env inst = "running") ∧
    (0 < svc.runningCount → svc.runningCount < svc.desiredCount →
      InstancesFn.get_ecs_service_status env inst = "starting") ∧
    (svc.runningCount = 0 → 0 < svc.desiredCount →
      InstancesFn.get_ecs_service_status env inst = "pending") := by
  have hmain : InstancesFn.get_ecs_service_status env inst =
      (if svc.desiredCount = 0 then "stopped"
       else if svc.runningCount = svc.desiredCount then "running"
       else if svc.runningCount > 0 then "starting"
       else "pending") := by
    unfold InstancesFn.get_ecs_service_status
    rw [hs, ha]
    dsimp only
    rw [hd]
    dsimp only
    rw [hactive]
    simp
  refine ⟨?_, ?_, ?_, ?_⟩
  · intro h0
    rw [hmain, if_pos h0]
  · intro hpos heq
    rw [hmain, if_neg (by omega), if_pos heq]
  · intro hr hlt
    rw [hmain, if_neg (by omega), if_neg (by omega), if_pos (by omega)]
  · intro hr hd0
    rw [hmain, if_neg (by omega), if_neg (by omega), if_neg (by omega)]

/-- Concrete world for the C1 witness: an ACTIVE service with
2 desired and 1 running replica. -/
def c1Svc : EcsService :=
  { status := "ACTIVE", desiredCount := 2, runningCount := 1
    pendingCount := 1, serviceArn := none, taskDefinition := none
    platformVersion := none, launchType := none, createdAt := none }

def c1Inst : InstanceRec :=
  { instance_id := "inst-1", model_id := "llama2:7b", user_id := some "alice"
    service_name := some "ollama-inst-1", ecs_service_arn := some "arn:svc"
    target_group_arn := none, task_definition_arn := none
    status := "starting", instance_type := "fargate", endpoint_url := ""
    custom_name := "", created_at := "2024-01-01T00:00:00"
    ttl := none, stopped_at := none, last_status_update := none
    real_time_status := none }

def c1Env : InstancesFn.Env :=
  { describeService := fun _ => EcsDescribe.ok (some c1Svc)
    streamsOutcome := InstancesFn.StreamsOutcome.ok []
    statusUpdateRaises := false, envName := "dev", now := "" }

/-- Witness for C1 at the concrete ACTIVE service with desired=2, running=1. -/
theorem c1_status_pure_function_witness :
    (c1Svc.desiredCount = 0 →
      InstancesFn.get_ecs_service_status c1Env c1Inst = "stopped") ∧
    (0 < c1Svc.desiredCount → c1Svc.runningCount = c1Svc.desiredCount →
      InstancesFn.get_ecs_service_status c1Env c1Inst = "running") ∧
    (0 < c1Svc.runningCount → c1Svc.runningCount < c1Svc.desiredCount →
      InstancesFn.get_ecs_service_status c1Env c1Inst = "starting") ∧
    (c1Svc.runningCount = 0 → 0 < c1Svc.desiredCount →
      InstancesFn.get_ecs_service_status c1Env c1Inst = "pending") :=
  c1_status_pure_function c1Env c1Inst "ollama-inst-1" "arn:svc" c1Svc
    rfl rfl rfl rfl

/-- C5: the deployment-configuration mapping is the static three-way
lookup on the instance-size class — GPU sizes pin an EC2 host with the GPU
task definition, large-CPU sizes pin an EC2 host with the CPU task
definition, and every other size gets the default Fargate profile with the
CPU task definition and no placement constraints. -/
theorem c5_task_configuration (env : TasksFn.TaskEnv)
    (model_id instance_type : String) :
    TasksFn.get_task_configuration env model_id instance_type =
      (if instance_type ∈ TasksFn.gpu_instance_types then
        { container_image := TasksFn.model_images env model_id
          launch_type := "EC2"
          task_definition := env.gpuTaskDefArn
          placement_constraints := some
            [{ ctype := "memberOf"
               expression :=
                 "attribute:ecs.instance-type == " ++ instance_type }] }
      else if instance_type ∈ TasksFn.large_cpu_types then
        { container_image := TasksFn.model_images env model_id
          launch_type := "EC2"
          task_definition := env.cpuTaskDefArn
          placement_constraints := some
            [{ ctype := "memberOf"
               expression :=
                 "attribute:ecs.instance-type == " ++ instance_type }] }
      else
        { container_image := TasksFn.model_images env model_id
          launch_type := "FARGATE"
          task_definition := env.cpuTaskDefArn
          placement_constraints := none }) := by
  unfold TasksFn.get_task_configuration
  split_ifs <;> rfl

/-- C9: the cost-estimate lookup is total — each tabulated size maps to its
fixed rate and every other selector maps to the zero-cost sentinel. -/
theorem c9_cost_lookup :
    (TasksFn.get_estimated_cost "ml.m5.large" = "$0.12/hour" ∧
     TasksFn.get_estimated_cost "ml.m5.xlarge" = "$0.24/hour" ∧
     TasksFn.get_estimated_cost "ml.m5.2xlarge" = "$0.48/hour" ∧
     TasksFn.get_estimated_cost "ml.g4dn.xlarge" = "$0.71/hour" ∧
     TasksFn.get_estimated_cost "ml.g4dn.2xlarge" = "$1.42/hour" ∧
     TasksFn.get_estimated_cost "ml.p3.2xlarge" = "$3.06/hour") ∧
    (∀ s : String,
      s ∉ ["ml.m5.large", "ml.m5.xlarge", "ml.m5.2xlarge", "ml.g4dn.xlarge",
           "ml.g4dn.2xlarge", "ml.p3.2xlarge"] →
      TasksFn.get_estimated_cost s = "$0.00/hour") := by
  constructor
  · exact ⟨by decide, by decide, by decide, by decide, by decide, by decide⟩
  · intro s hs
    simp only [List.mem_cons, List.not_mem_nil, or_false, not_or] at hs
    obtain ⟨h1, h2, h3, h4, h5, h6⟩ := hs
    unfold TasksFn.get_estimated_cost
    rw [if_neg h1, if_neg h2, if_neg h3, if_neg h4, if_neg h5, if_neg h6]

/-- Witness for C9 at an unknown size selector. -/
theorem c9_cost_lookup_witness :
    TasksFn.get_estimated_cost "ml.c5.9xlarge" = "$0.00/hour" :=
  c9_cost_lookup.2 "ml.c5.9xlarge" (by decide)

end AwsOllama

namespace AwsOllama

/-- C4: on both create surfaces, a create request whose model identifier
does not resolve in the model catalog yields 404, persists no instance
record, and issues no provisioning call. -/
theorem c4_unknown_model
    (menv : ModelsFn.Env) (models : List ModelsFn.ModelRec)
    (instances : List InstanceRec) (b : ModelsFn.StartBody) (mid : String)
    (user : UserInfo)
    (tenv : TasksFn.Env) (tmodels : List TasksFn.TaskModelRec)
    (tinstances : List TasksFn.TaskInstanceRec) (tb : TasksFn.CreateBody)
    (tmid : String) (tuser : TasksFn.TUserInfo)
    (hb : b.model_id = some mid)
    (hm : models.find? (fun mr => mr.model_id = mid) = none)
    (htb : tb.modelId = some tmid)
    (htm : tmodels.find? (fun mr => mr.id = tmid) = none) :
    ((ModelsFn.start_model menv models instances (Except.ok b) user).resp.statusCode = 404 ∧
     (ModelsFn.start_model menv models instances (Except.ok b) user).resp.body =
       some (ModelsFn.Body.errorB "Model not found") ∧
     (ModelsFn.start_model menv models instances (Except.ok b) user).instances = instances ∧
     (ModelsFn.start_model menv models instances (Except.ok b) user).taskDefCalled = false ∧
     (ModelsFn.start_model menv models instances (Except.ok b) user).targetGroupCalled = false ∧
     (ModelsFn.start_model menv models instances (Except.ok b) user).createServiceCalled = false) ∧
    ((TasksFn.create_instance tenv tmodels tinstances (Except.ok tb) tuser).resp.statusCode = 404 ∧
     (TasksFn.create_instance tenv tmodels tinstances (Except.ok tb) tuser).resp.body =
       some (TasksFn.Body.errorB "Model not found") ∧
     (TasksFn.create_instance tenv tmodels tinstances (Except.ok tb) tuser).instances = tinstances ∧
     (TasksFn.create_instance tenv tmodels tinstances (Except.ok tb) tuser).runTaskCalled = false) := by
  constructor
  · have h : ModelsFn.start_model menv models instances (Except.ok b) user =
        ⟨ModelsFn.create_error_response 404 "Model not found", instances,
          false, false, false⟩ := by
      unfold ModelsFn.start_model
      dsimp only
      rw [hb]
      dsimp only
      rw [hm]
    rw [h]
    exact ⟨rfl, rfl, rfl, rfl, rfl, rfl⟩
  · have h : TasksFn.create_instance tenv tmodels tinstances (Except.ok tb) tuser =
        ⟨TasksFn.respond 404 (TasksFn.Body.errorB "Model not found"),
          tinstances, false⟩ := by
      unfold TasksFn.create_instance
      dsimp only
      rw [htb]
      dsimp only
      rw [htm]
    rw [h]
    exact ⟨rfl, rfl, rfl, rfl⟩

/-- Concrete world for the C4 witness: empty model catalogs. -/
def c4MEnv : ModelsFn.Env :=
  { queryRaises := false, maxInstances := 5
    taskDefOutcome := Except.ok "arn:td", targetGroupOutcome := Except.ok "arn:tg"
    createServiceOutcome := Except.ok "arn:svc", newInstanceId := "new-id"
    now := "2024-01-01T00:00:00", nowEpoch := 0, domain := "example.com"
    envName := "dev", ecsUpdateRaises := false, ecsDeleteRaises := false
    tgDeleteRaises := false }

def c4TEnv : TasksFn.Env :=
  { taskEnv :=
      { llama2_7b_image := none, llama2_13b_image := none
        codellama_7b_image := none, codellama_13b_image := none
        mistral_7b_image := none, cpuTaskDefArn := "arn:cpu"
        gpuTaskDefArn := "arn:gpu" }
    runTaskOutcome := Except.ok "arn:task"
    describeTask := fun _ => TasksFn.TaskDescribe.raises
    stopTaskRaises := false, newInstanceId := "new-id"
    now := "2024-01-01T00:00:00", domain := "example.com" }

def c4User : UserInfo := { user_id := some "alice", email := none, groups := [] }

def c4TUser : TasksFn.TUserInfo :=
  { user_id := some "alice", email := none, username := none, groups := [] }

/-- Witness for C4: an unknown model id against empty catalogs. -/
theorem c4_unknown_model_witness :
    ((ModelsFn.start_model c4MEnv [] [] (Except.ok ⟨some "nope", none, none⟩) c4User).resp.statusCode = 404 ∧
     (ModelsFn.start_model c4MEnv [] [] (Except.ok ⟨some "nope", none, none⟩) c4User).resp.body =
       some (ModelsFn.Body.errorB "Model not found") ∧
     (ModelsFn.start_model c4MEnv [] [] (Except.ok ⟨some "nope", none, none⟩) c4User).instances = [] ∧
     (ModelsFn.start_model c4MEnv [] [] (Except.ok ⟨some "nope", none, none⟩) c4User).taskDefCalled = false ∧
     (ModelsFn.start_model c4MEnv [] [] (Except.ok ⟨some "nope", none, none⟩) c4User).targetGroupCalled = false ∧
     (ModelsFn.start_model c4MEnv [] [] (Except.ok ⟨some "nope", none, none⟩) c4User).createServiceCalled = false) ∧
    ((TasksFn.create_instance c4TEnv [] [] (Except.ok ⟨some "nope", none⟩) c4TUser).resp.statusCode = 404 ∧
     (TasksFn.create_instance c4TEnv [] [] (Except.ok ⟨some "nope", none⟩) c4TUser).resp.body =
       some (TasksFn.Body.errorB "Model not found") ∧
     (TasksFn.create_instance c4TEnv [] [] (Except.ok ⟨some "nope", none⟩) c4TUser).instances = [] ∧
     (TasksFn.create_instance c4TEnv [] [] (Except.ok ⟨some "nope", none⟩) c4TUser).runTaskCalled = false) :=
  c4_unknown_model c4MEnv [] [] ⟨some "nope", none, none⟩ "nope" c4User
    c4TEnv [] [] ⟨some "nope", none⟩ "nope" c4TUser rfl rfl rfl rfl

end AwsOllama

namespace AwsOllama

/-- Concrete world refuting C3 as stated: the caller already owns five
active instances — the default configured per-user maximum — yet the
bare-task create surface (`POST /instances`, `create_instance`) contains
no limit check. -/
def c3TEnv : TasksFn.Env :=
  { taskEnv :=
      { llama2_7b_image := none, llama2_13b_image := none
        codellama_7b_image := none, codellama_13b_image := none
        mistral_7b_image := none, cpuTaskDefArn := "arn:cpu"
        gpuTaskDefArn := "arn:gpu" }
    runTaskOutcome := Except.ok "arn:task-new"
    describeTask := fun _ => TasksFn.TaskDescribe.raises
    stopTaskRaises := false, newInstanceId := "instance-6"
    now := "2024-01-01T06:00:00", domain := "example.com" }

def c3Model : TasksFn.TaskModelRec :=
  { id := "llama2:7b", name := "Llama 2 7B", ollama_model_name := none }

def c3Rec (i : String) : TasksFn.TaskInstanceRec :=
  { id := i, user_id := some "alice", model_id := "llama2:7b"
    model_name := "Llama 2 7B", status := "running"
    instance_type := "ml.m5.large", task_arn := some "arn:task"
    created_at := "2024-01-01T00:00:00", updated_at := "2024-01-01T00:00:00"
    estimated_cost := "$0.12/hour", endpoint := "https://x.example.com/api" }

def c3Instances : List TasksFn.TaskInstanceRec :=
  [c3Rec "instance-1", c3Rec "instance-2", c3Rec "instance-3",
   c3Rec "instance-4", c3Rec "instance-5"]

def c3Alice : TasksFn.TUserInfo :=
  { user_id := some "alice", email := none, username := none, groups := [] }

def c3Body : TasksFn.CreateBody := { modelId := some "llama2:7b", instanceType := none }

/-- Counterexample to C3 as stated: with the caller's active-instance
count at five — equal to the default configured maximum of five — a
create request on the bare-task surface returns 201 (not the quota error
429) and persists a sixth instance record. -/
theorem c3_counterexample :
    (c3Instances.filter (fun r =>
      r.user_id = c3Alice.user_id ∧
        (r.status = "running" ∨ r.status = "starting"))).length = 5 ∧
    (TasksFn.create_instance c3TEnv [c3Model] c3Instances
      (Except.ok c3Body) c3Alice).resp.statusCode = 201 ∧
    (TasksFn.create_instance c3TEnv [c3Model] c3Instances
      (Except.ok c3Body) c3Alice).instances.length = 6 ∧
    ¬ ((TasksFn.create_instance c3TEnv [c3Model] c3Instances
        (Except.ok c3Body) c3Alice).resp.statusCode = 429) := by
  refine ⟨by decide, rfl, rfl, by decide⟩

/-- C3 (amended): on the service-oriented create surface
(`POST /models/start`, `start_model`) a create request whose model
resolves and whose caller already has at least the configured maximum of
owned instances with status `starting` or `running` yields the quota
error 429, persists no new record, and issues no provisioning call. -/
theorem c3_quota_enforced
    (env : ModelsFn.Env) (models : List ModelsFn.ModelRec)
    (instances : List InstanceRec) (b : ModelsFn.StartBody) (mid : String)
    (model : ModelsFn.ModelRec) (user : UserInfo)
    (hb : b.model_id = some mid)
    (hm : models.find? (fun mr => mr.model_id = mid) = some model)
    (hq : env.maxInstances ≤ (ModelsFn.active_owned instances user.user_id).length) :
    (ModelsFn.start_model env models instances (Except.ok b) user).resp.statusCode = 429 ∧
    (ModelsFn.start_model env models instances (Except.ok b) user).resp.body =
      some (ModelsFn.Body.errorB "Instance limit exceeded") ∧
    (ModelsFn.start_model env models instances (Except.ok b) user).instances = instances ∧
    (ModelsFn.start_model env models instances (Except.ok b) user).taskDefCalled = false ∧
    (ModelsFn.start_model env models instances (Except.ok b) user).targetGroupCalled = false ∧
    (ModelsFn.start_model env models instances (Except.ok b) user).createServiceCalled = false := by
  have hc : ModelsFn.check_user_instance_limits env instances user.user_id = false := by
    unfold ModelsFn.check_user_instance_limits
    split
    · rfl
    · simp only [decide_eq_false_iff_not]
      omega
  have h : ModelsFn.start_model env models instances (Except.ok b) user =
      ⟨ModelsFn.create_error_response 429 "Instance limit exceeded", instances,
        false, false, false⟩ := by
    unfold ModelsFn.start_model
    dsimp only
    rw [hb]
    dsimp only
    rw [hm]
    dsimp only
    rw [hc]
    simp
  rw [h]
  exact ⟨rfl, rfl, rfl, rfl, rfl, rfl⟩

/-- Concrete world for the C3 witness: maximum one active instance, and
the caller already owns one running instance. -/
def c3MEnv : ModelsFn.Env :=
  { queryRaises := false, maxInstances := 1
    taskDefOutcome := Except.ok "arn:td", targetGroupOutcome := Except.ok "arn:tg"
    createServiceOutcome := Except.ok "arn:svc", newInstanceId := "new-id"
    now := "2024-01-01T00:00:00", nowEpoch := 0, domain := "example.com"
    envName := "dev", ecsUpdateRaises := false, ecsDeleteRaises := false
    tgDeleteRaises := false }

def c3MModel : ModelsFn.ModelRec :=
  { model_id := "llama2:7b", model_name := "Llama 2 7B", is_active := true }

def c3MRec : InstanceRec :=
  { instance_id := "inst-1", model_id := "llama2:7b", user_id := some "alice"
    service_name := some "ollama-inst-1", ecs_service_arn := some "arn:svc"
    target_group_arn := some "arn:tg", task_definition_arn := some "arn:td"
    status := "running", instance_type := "fargate", endpoint_url := ""
    custom_name := "", created_at := "2024-01-01T00:00:00"
    ttl := none, stopped_at := none, last_status_update := none
    real_time_status := none }

/-- Witness for the amended C3 at a concrete at-limit caller. -/
theorem c3_quota_enforced_witness :
    (ModelsFn.start_model c3MEnv [c3MModel] [c3MRec]
      (Except.ok ⟨some "llama2:7b", none, none⟩) c4User).resp.statusCode = 429 ∧
    (ModelsFn.start_model c3MEnv [c3MModel] [c3MRec]
      (Except.ok ⟨some "llama2:7b", none, none⟩) c4User).resp.body =
      some (ModelsFn.Body.errorB "Instance limit exceeded") ∧
    (ModelsFn.start_model c3MEnv [c3MModel] [c3MRec]
      (Except.ok ⟨some "llama2:7b", none, none⟩) c4User).instances = [c3MRec] ∧
    (ModelsFn.start_model c3MEnv [c3MModel] [c3MRec]
      (Except.ok ⟨some "llama2:7b", none, none⟩) c4User).taskDefCalled = false ∧
    (ModelsFn.start_model c3MEnv [c3MModel] [c3MRec]
      (Except.ok ⟨some "llama2:7b", none, none⟩) c4User).targetGroupCalled = false ∧
    (ModelsFn.start_model c3MEnv [c3MModel] [c3MRec]
      (Except.ok ⟨some "llama2:7b", none, none⟩) c4User).createServiceCalled = false :=
  c3_quota_enforced c3MEnv [c3MModel] [c3MRec] ⟨some "llama2:7b", none, none⟩
    "llama2:7b" c3MModel c4User rfl (by decide) (by decide)

/-- C10: the per-user limit check fails closed — when the store query
counting the caller's active instances raises, the check reports the
limit as exceeded and `start_model` rejects the request with 429,
persisting nothing and issuing no provisioning call. -/
theorem c10_limit_fails_closed
    (env : ModelsFn.Env) (models : List ModelsFn.ModelRec)
    (instances : List InstanceRec) (b : ModelsFn.StartBody) (mid : String)
    (model : ModelsFn.ModelRec) (user : UserInfo)
    (hraise : env.queryRaises = true)
    (hb : b.model_id = some mid)
    (hm : models.find? (fun mr => mr.model_id = mid) = some model) :
    ModelsFn.check_user_instance_limits env instances user.user_id = false ∧
    (ModelsFn.start_model env models instances (Except.ok b) user).resp.statusCode = 429 ∧
    (ModelsFn.start_model env models instances (Except.ok b) user).resp.body =
      some (ModelsFn.Body.errorB "Instance limit exceeded") ∧
    (ModelsFn.start_model env models instances (Except.ok b) user).instances = instances ∧
    (ModelsFn.start_model env models instances (Except.ok b) user).taskDefCalled = false ∧
    (ModelsFn.start_model env models instances (Except.ok b) user).targetGroupCalled = false ∧
    (ModelsFn.start_model env models instances (Except.ok b) user).createServiceCalled = false := by
  have hc : ModelsFn.check_user_instance_limits env instances user.user_id = false := by
    unfold ModelsFn.check_user_instance_limits
    rw [hraise]
    simp
  have h : ModelsFn.start_model env models instances (Except.ok b) user =
      ⟨ModelsFn.create_error_response 429 "Instance limit exceeded", instances,
        false, false, false⟩ := by
    unfold ModelsFn.start_model
    dsimp only
    rw [hb]
    dsimp only
    rw [hm]
    dsimp only
    rw [hc]
    simp
  rw [h]
  exact ⟨hc, rfl, rfl, rfl, rfl, rfl, rfl⟩

/-- Environment for the C10 witness: the instance-count query raises. -/
def c10MEnv : ModelsFn.Env :=
  { queryRaises := true, maxInstances := 5
    taskDefOutcome := Except.ok "arn:td", targetGroupOutcome := Except.ok "arn:tg"
    createServiceOutcome := Except.ok "arn:svc", newInstanceId := "new-id"
    now := "2024-01-01T00:00:00", nowEpoch := 0, domain := "example.com"
    envName := "dev", ecsUpdateRaises := false, ecsDeleteRaises := false
    tgDeleteRaises := false }

/-- Witness for C10 at a concrete raising store query. -/
theorem c10_limit_fails_closed_witness :
    ModelsFn.check_user_instance_limits c10MEnv [] c4User.user_id = false ∧
    (ModelsFn.start_model c10MEnv [c3MModel] []
      (Except.ok ⟨some "llama2:7b", none, none⟩) c4User).resp.statusCode = 429 ∧
    (ModelsFn.start_model c10MEnv [c3MModel] []
      (Except.ok ⟨some "llama2:7b", none, none⟩) c4User).resp.body =
      some (ModelsFn.Body.errorB "Instance limit exceeded") ∧
    (ModelsFn.start_model c10MEnv [c3MModel] []
      (Except.ok ⟨some "llama2:7b", none, none⟩) c4User).instances = [] ∧
    (ModelsFn.start_model c10MEnv [c3MModel] []
      (Except.ok ⟨some "llama2:7b", none, none⟩) c4User).taskDefCalled = false ∧
    (ModelsFn.start_model c10MEnv [c3MModel] []
      (Except.ok ⟨some "llama2:7b", none, none⟩) c4User).targetGroupCalled = false ∧
    (ModelsFn.start_model c10MEnv [c3MModel] []
      (Except.ok ⟨some "llama2:7b", none, none⟩) c4User).createServiceCalled = false :=
  c10_limit_fails_closed c10MEnv [c3MModel] [] ⟨some "llama2:7b", none, none⟩
    "llama2:7b" c3MModel c4User rfl rfl (by decide)

end AwsOllama

namespace AwsOllama

/-- C6: stopping an already-stopped instance succeeds again — for every
outcome of the best-effort ECS and load-balancer cleanup calls (the raise
flags in `env`), the owner's or an administrator's second stop returns
200 with a stopped body, and the record is re-marked `stopped` with the
stop timestamp. -/
theorem c6_stop_idempotent
    (env : ModelsFn.Env) (table : List InstanceRec) (inst : InstanceRec)
    (instance_id : String) (user : UserInfo)
    (hfind : table.find? (fun r => r.instance_id = instance_id) = some inst)
    (hstopped : inst.status = "stopped")
    (hacc : inst.user_id = user.user_id ∨ "Administrators" ∈ user.groups) :
    (ModelsFn.stop_model env table instance_id user).fst.statusCode = 200 ∧
    (ModelsFn.stop_model env table instance_id user).fst.body =
      some (ModelsFn.Body.stoppedB instance_id "stopped") ∧
    ∀ r ∈ (ModelsFn.stop_model env table instance_id user).snd,
      r.instance_id = instance_id →
        r.status = "stopped" ∧ r.stopped_at = some env.now := by
  have hcond : ¬ (inst.user_id ≠ user.user_id ∧ "Administrators" ∉ user.groups) := by
    rcases hacc with h | h
    · exact fun hc => hc.1 h
    · exact fun hc => hc.2 h
  have h : ModelsFn.stop_model env table instance_id user =
      (ModelsFn.create_success_response
          (ModelsFn.Body.stoppedB instance_id "stopped") 200,
        table.map (fun r =>
          if r.instance_id = instance_id then
            { r with status := "stopped", stopped_at := some env.now }
          else r)) := by
    unfold ModelsFn.stop_model
    rw [hfind]
    dsimp only
    rw [if_neg hcond]
  rw [h]
  refine ⟨rfl, rfl, ?_⟩
  intro r hr hid
  rcases List.mem_map.mp hr with ⟨r0, _hr0, hmapped⟩
  by_cases h0 : r0.instance_id = instance_id
  · rw [if_pos h0] at hmapped
    rw [← hmapped]
    exact ⟨rfl, rfl⟩
  · rw [if_neg h0] at hmapped
    rw [← hmapped] at hid
    exact absurd hid h0

/-- Concrete world for the C6 witness: a record already stopped, stopped
again by its owner while every cleanup call raises. -/
def c6Env : ModelsFn.Env :=
  { queryRaises := false, maxInstances := 5
    taskDefOutcome := Except.ok "arn:td", targetGroupOutcome := Except.ok "arn:tg"
    createServiceOutcome := Except.ok "arn:svc", newInstanceId := "new-id"
    now := "2024-01-02T00:00:00", nowEpoch := 0, domain := "example.com"
    envName := "dev", ecsUpdateRaises := true, ecsDeleteRaises := true
    tgDeleteRaises := true }

def c6Rec : InstanceRec :=
  { instance_id := "inst-1", model_id := "llama2:7b", user_id := some "alice"
    service_name := some "ollama-inst-1", ecs_service_arn := some "arn:svc"
    target_group_arn := some "arn:tg", task_definition_arn := some "arn:td"
    status := "stopped", instance_type := "fargate", endpoint_url := ""
    custom_name := "", created_at := "2024-01-01T00:00:00"
    ttl := none, stopped_at := some "2024-01-01T12:00:00"
    last_status_update := none, real_time_status := none }

/-- Witness for C6: second stop of a stopped record by its owner. -/
theorem c6_stop_idempotent_witness :
    (ModelsFn.stop_model c6Env [c6Rec] "inst-1" c4User).fst.statusCode = 200 ∧
    (ModelsFn.stop_model c6Env [c6Rec] "inst-1" c4User).fst.body =
      some (ModelsFn.Body.stoppedB "inst-1" "stopped") ∧
    ∀ r ∈ (ModelsFn.stop_model c6Env [c6Rec] "inst-1" c4User).snd,
      r.instance_id = "inst-1" →
        r.status = "stopped" ∧ r.stopped_at = some c6Env.now :=
  c6_stop_idempotent c6Env [c6Rec] c6Rec "inst-1" c4User rfl rfl
    (Or.inl rfl)

/-- C2: an instance owned by user A is inaccessible to a caller B who is
neither A nor an administrator — a direct get or stop by B yields 403 and
leaves the table unchanged, and B's list never contains a record owned by
A — while the owner and an administrator always get 200 on get and stop
and see the instance in their lists. -/
theorem c2_owner_isolation
    (ienv : InstancesFn.Env) (menv : ModelsFn.Env) (table : List InstanceRec)
    (inst : InstanceRec) (a b admin : UserInfo)
    (hfind : table.find? (fun r => r.instance_id = inst.instance_id) = some inst)
    (hown : inst.user_id = a.user_id)
    (hba : b.user_id ≠ a.user_id)
    (hbadmin : "Administrators" ∉ b.groups)
    (hadmin : "Administrators" ∈ admin.groups) :
    (InstancesFn.get_instance ienv table inst.instance_id b).statusCode = 403 ∧
    (ModelsFn.stop_model menv table inst.instance_id b).fst.statusCode = 403 ∧
    (ModelsFn.stop_model menv table inst.instance_id b).snd = table ∧
    (∀ it ∈ InstancesFn.listedInstances ienv table b, it.user_id ≠ inst.user_id) ∧
    (InstancesFn.get_instance ienv table inst.instance_id a).statusCode = 200 ∧
    (InstancesFn.get_instance ienv table inst.instance_id admin).statusCode = 200 ∧
    (ModelsFn.stop_model menv table inst.instance_id a).fst.statusCode = 200 ∧
    (ModelsFn.stop_model menv table inst.instance_id admin).fst.statusCode = 200 ∧
    (∃ it ∈ InstancesFn.listedInstances ienv table a,
      it.instance_id = inst.instance_id) ∧
    (∃ it ∈ InstancesFn.listedInstances ienv table admin,
      it.instance_id = inst.instance_id) := by
  have hbneq : inst.user_id ≠ b.user_id := by
    rw [hown]; exact fun h => hba h.symm
  have hbcond : inst.user_id ≠ b.user_id ∧ "Administrators" ∉ b.groups :=
    ⟨hbneq, hbadmin⟩
  have hacond : ¬ (inst.user_id ≠ a.user_id ∧ "Administrators" ∉ a.groups) :=
    fun hc => hc.1 hown
  have hadcond : ¬ (inst.user_id ≠ admin.user_id ∧ "Administrators" ∉ admin.groups) :=
    fun hc => hc.2 hadmin
  have hmem : inst ∈ table := List.mem_of_find?_eq_some hfind
  refine ⟨?_, ?_, ?_, ?_, ?_, ?_, ?_, ?_, ?_, ?_⟩
  · unfold InstancesFn.get_instance
    rw [hfind]
    dsimp only
    rw [if_pos hbcond]
    rfl
  · unfold ModelsFn.stop_model
    rw [hfind]
    dsimp only
    rw [if_pos hbcond]
    rfl
  · unfold ModelsFn.stop_model
    rw [hfind]
    dsimp only
    rw [if_pos hbcond]
  · intro it hit
    unfold InstancesFn.listedInstances at hit
    rw [if_neg hbadmin] at hit
    rcases List.mem_map.mp hit with ⟨r0, hr0, hmapped⟩
    have hr0f := List.mem_mergeSort.mp hr0
    have hr0u : r0.user_id = b.user_id := by
      have := List.mem_filter.mp hr0f
      exact of_decide_eq_true this.2
    have : it.user_id = r0.user_id := by rw [← hmapped]; rfl
    rw [this, hr0u, hown]
    exact fun h => hba h
  · unfold InstancesFn.get_instance
    rw [hfind]
    dsimp only
    rw [if_neg hacond]
    rfl
  · unfold InstancesFn.get_instance
    rw [hfind]
    dsimp only
    rw [if_neg hadcond]
    rfl
  · unfold ModelsFn.stop_model
    rw [hfind]
    dsimp only
    rw [if_neg hacond]
    rfl
  · unfold ModelsFn.stop_model
    rw [hfind]
    dsimp only
    rw [if_neg hadcond]
    rfl
  · refine ⟨InstancesFn.enrich ienv inst, ?_, rfl⟩
    unfold InstancesFn.listedInstances
    by_cases hag : "Administrators" ∈ a.groups
    · rw [if_pos hag]
      exact List.mem_map.mpr ⟨inst, List.mem_mergeSort.mpr hmem, rfl⟩
    · rw [if_neg hag]
      refine List.mem_map.mpr ⟨inst, List.mem_mergeSort.mpr ?_, rfl⟩
      exact List.mem_filter.mpr ⟨hmem, decide_eq_true hown⟩
  · refine ⟨InstancesFn.enrich ienv inst, ?_, rfl⟩
    unfold InstancesFn.listedInstances
    rw [if_pos hadmin]
    exact List.mem_map.mpr ⟨inst, List.mem_mergeSort.mpr hmem, rfl⟩

end AwsOllama

namespace AwsOllama

/-- Concrete world for the C2 witness. -/
def c2Env : InstancesFn.Env :=
  { describeService := fun _ => EcsDescribe.raises
    streamsOutcome := InstancesFn.StreamsOutcome.ok []
    statusUpdateRaises := false, envName := "dev", now := "2024-01-01T00:00:00" }

def c2MEnv : ModelsFn.Env :=
  { queryRaises := false, maxInstances := 5
    taskDefOutcome := Except.ok "arn:td", targetGroupOutcome := Except.ok "arn:tg"
    createServiceOutcome := Except.ok "arn:svc", newInstanceId := "new-id"
    now := "2024-01-01T00:00:00", nowEpoch := 0, domain := "example.com"
    envName := "dev", ecsUpdateRaises := false, ecsDeleteRaises := false
    tgDeleteRaises := false }

def c2Rec : InstanceRec :=
  { instance_id := "inst-1", model_id := "llama2:7b", user_id := some "alice"
    service_name := some "ollama-inst-1", ecs_service_arn := some "arn:svc"
    target_group_arn := some "arn:tg", task_definition_arn := some "arn:td"
    status := "running", instance_type := "fargate", endpoint_url := ""
    custom_name := "", created_at := "2024-01-01T00:00:00"
    ttl := none, stopped_at := none, last_status_update := none
    real_time_status := none }

def c2Alice : UserInfo := { user_id := some "alice", email := none, groups := [] }

def c2Bob : UserInfo := { user_id := some "bob", email := none, groups := [] }

def c2Carol : UserInfo :=
  { user_id := some "carol", email := none, groups := ["Administrators"] }

/-- Witness for C2: Alice's instance against caller Bob and administrator
Carol in a one-row table. -/
theorem c2_owner_isolation_witness :
    (InstancesFn.get_instance c2Env [c2Rec] c2Rec.instance_id c2Bob).statusCode = 403 ∧
    (ModelsFn.stop_model c2MEnv [c2Rec] c2Rec.instance_id c2Bob).fst.statusCode = 403 ∧
    (ModelsFn.stop_model c2MEnv [c2Rec] c2Rec.instance_id c2Bob).snd = [c2Rec] ∧
    (∀ it ∈ InstancesFn.listedInstances c2Env [c2Rec] c2Bob,
      it.user_id ≠ c2Rec.user_id) ∧
    (InstancesFn.get_instance c2Env [c2Rec] c2Rec.instance_id c2Alice).statusCode = 200 ∧
    (InstancesFn.get_instance c2Env [c2Rec] c2Rec.instance_id c2Carol).statusCode = 200 ∧
    (ModelsFn.stop_model c2MEnv [c2Rec] c2Rec.instance_id c2Alice).fst.statusCode = 200 ∧
    (ModelsFn.stop_model c2MEnv [c2Rec] c2Rec.instance_id c2Carol).fst.statusCode = 200 ∧
    (∃ it ∈ InstancesFn.listedInstances c2Env [c2Rec] c2Alice,
      it.instance_id = c2Rec.instance_id) ∧
    (∃ it ∈ InstancesFn.listedInstances c2Env [c2Rec] c2Carol,
      it.instance_id = c2Rec.instance_id) :=
  c2_owner_isolation c2Env c2MEnv [c2Rec] c2Rec c2Alice c2Bob c2Carol
    rfl rfl (by decide) (by decide) (by decide)

end AwsOllama

namespace AwsOllama

/-- C8 (amended): for an authorized log-retrieval request, absence of the
log group (`ResourceNotFoundException`) yields a 200 with an empty log
list and the explanatory note; when the group exists, the returned body
carries no note and holds at most 100 entries, sorted newest first, all
drawn from the events of the returned streams. -/
theorem c8_log_retrieval
    (env : InstancesFn.Env) (table : List InstanceRec) (inst : InstanceRec)
    (instance_id : String) (user : UserInfo)
    (hfind : table.find? (fun r => r.instance_id = instance_id) = some inst)
    (hacc : inst.user_id = user.user_id ∨ "Administrators" ∈ user.groups) :
    (env.streamsOutcome = InstancesFn.StreamsOutcome.notFoundExc →
      InstancesFn.get_instance_logs env table instance_id user =
        InstancesFn.create_success_response
          (InstancesFn.Body.logsB [] instance_id none none
            (some "No logs available yet")) 200) ∧
    (∀ streams, env.streamsOutcome = InstancesFn.StreamsOutcome.ok streams →
      (InstancesFn.get_instance_logs env table instance_id user).statusCode = 200 ∧
      ∃ entries,
        (InstancesFn.get_instance_logs env table instance_id user).body =
          some (InstancesFn.Body.logsB entries instance_id
            (some ("/ecs/" ++ env.envName ++ "-ollama"))
            (some ("ollama-" ++ instance_id.take 8)) none) ∧
        entries.length ≤ 100 ∧
        List.Pairwise (fun x y => y.timestamp ≤ x.timestamp) entries ∧
        ∀ e ∈ entries, e ∈ InstancesFn.collectLogs streams) := by
  have hcond : ¬ (inst.user_id ≠ user.user_id ∧ "Administrators" ∉ user.groups) := by
    rcases hacc with h | h
    · exact fun hc => hc.1 h
    · exact fun hc => hc.2 h
  constructor
  · intro hnf
    unfold InstancesFn.get_instance_logs
    rw [hfind]
    dsimp only
    rw [if_neg hcond, hnf]
  · intro streams hok
    have h : InstancesFn.get_instance_logs env table instance_id user =
        InstancesFn.create_success_response
          (InstancesFn.Body.logsB
            (((InstancesFn.collectLogs streams).mergeSort
                InstancesFn.logDescLe).take 100)
            instance_id (some ("/ecs/" ++ env.envName ++ "-ollama"))
            (some ("ollama-" ++ instance_id.take 8)) none) 200 := by
      unfold InstancesFn.get_instance_logs
      rw [hfind]
      dsimp only
      rw [if_neg hcond, hok]
    rw [h]
    refine ⟨rfl, _, rfl, ?_, ?_, ?_⟩
    · exact le_trans (List.length_take_le 100 _) (le_refl 100)
    · have hsorted :
          List.Pairwise (fun x y => InstancesFn.logDescLe x y = true)
            ((InstancesFn.collectLogs streams).mergeSort InstancesFn.logDescLe) := by
        apply List.sorted_mergeSort
        · intro x y z hxy hyz
          simp only [InstancesFn.logDescLe, decide_eq_true_eq] at *
          omega
        · intro x y
          simp only [InstancesFn.logDescLe]
          rcases Nat.le_total y.timestamp x.timestamp with h | h
          · simp [h]
          · simp [h]
      have := List.Pairwise.sublist (List.take_sublist 100 _) hsorted
      exact this.imp (fun h => by
        simpa only [InstancesFn.logDescLe, decide_eq_true_eq] using h)
    · intro e he
      exact List.mem_mergeSort.mp (List.mem_of_mem_take he)

/-- Concrete world for the C8 witness: one stream with two events. -/
def c8Env : InstancesFn.Env :=
  { describeService := fun _ => EcsDescribe.raises
    streamsOutcome := InstancesFn.StreamsOutcome.ok
      [{ logStreamName := "ollama-inst-1/s1"
         eventsOutcome := Except.ok
           [{ timestamp := 1000, message := "boot" },
            { timestamp := 2000, message := "ready" }] }]
    statusUpdateRaises := false, envName := "dev", now := "2024-01-01T00:00:00" }

/-- Witness for the amended C8 at a concrete stream list. -/
theorem c8_log_retrieval_witness :
    (c8Env.streamsOutcome = InstancesFn.StreamsOutcome.notFoundExc →
      InstancesFn.get_instance_logs c8Env [c2Rec] "inst-1" c2Alice =
        InstancesFn.create_success_response
          (InstancesFn.Body.logsB [] "inst-1" none none
            (some "No logs available yet")) 200) ∧
    (∀ streams, c8Env.streamsOutcome = InstancesFn.StreamsOutcome.ok streams →
      (InstancesFn.get_instance_logs c8Env [c2Rec] "inst-1" c2Alice).statusCode = 200 ∧
      ∃ entries,
        (InstancesFn.get_instance_logs c8Env [c2Rec] "inst-1" c2Alice).body =
          some (InstancesFn.Body.logsB entries "inst-1"
            (some ("/ecs/" ++ c8Env.envName ++ "-ollama"))
            (some ("ollama-" ++ "inst-1".take 8)) none) ∧
        entries.length ≤ 100 ∧
        List.Pairwise (fun x y => y.timestamp ≤ x.timestamp) entries ∧
        ∀ e ∈ entries, e ∈ InstancesFn.collectLogs streams) :=
  c8_log_retrieval c8Env [c2Rec] c2Rec "inst-1" c2Alice rfl (Or.inl rfl)

/-- Environment refuting C8 as stated: the log group exists but holds no
stream for the instance. -/
def c8EmptyEnv : InstancesFn.Env :=
  { describeService := fun _ => EcsDescribe.raises
    streamsOutcome := InstancesFn.StreamsOutcome.ok []
    statusUpdateRaises := false, envName := "dev", now := "2024-01-01T00:00:00" }

/-- Counterexample to C8 as stated: when the log group exists but no log
stream matches the instance, the owner's request succeeds with an empty
log list but the body carries no explanatory note (`message` is absent),
contradicting the claim that absence of any log stream yields an empty
list together with an explanatory note. -/
theorem c8_counterexample :
    (InstancesFn.get_instance_logs c8EmptyEnv [c2Rec] "inst-1" c2Alice).statusCode = 200 ∧
    (InstancesFn.get_instance_logs c8EmptyEnv [c2Rec] "inst-1" c2Alice).body =
      some (InstancesFn.Body.logsB [] "inst-1" (some "/ecs/dev-ollama")
        (some "ollama-inst-1") none) := by
  have h : InstancesFn.get_instance_logs c8EmptyEnv [c2Rec] "inst-1" c2Alice =
      InstancesFn.create_success_response
        (InstancesFn.Body.logsB
          (((InstancesFn.collectLogs []).mergeSort InstancesFn.logDescLe).take 100)
          "inst-1" (some ("/ecs/" ++ c8EmptyEnv.envName ++ "-ollama"))
          (some ("ollama-" ++ "inst-1".take 8)) none) 200 := by
    unfold InstancesFn.get_instance_logs
    rw [show List.find? (fun r => decide (r.instance_id = "inst-1")) [c2Rec] =
      some c2Rec from rfl]
    dsimp only
    rw [if_neg (by decide),
      show c8EmptyEnv.streamsOutcome = InstancesFn.StreamsOutcome.ok [] from rfl]
  rw [h]
  refine ⟨rfl, ?_⟩
  have hnil : InstancesFn.collectLogs [] = [] := rfl
  rw [hnil, List.mergeSort_nil]
  have hgroup : ("/ecs/" ++ c8EmptyEnv.envName ++ "-ollama" : String) =
      "/ecs/dev-ollama" := by decide
  have hpfx : ("ollama-" ++ "inst-1".take 8 : String) = "ollama-inst-1" := by decide
  rw [hgroup, hpfx]
  rfl

end AwsOllama

namespace AwsOllama

lemma instancesListHeaders (env : InstancesFn.Env) (table : List InstanceRec)
    (u : UserInfo) : (InstancesFn.list_instances env table u).headers = apiHeaders := rfl

lemma instancesGetHeaders (env : InstancesFn.Env) (table : List InstanceRec)
    (iid : String) (u : UserInfo) :
    (InstancesFn.get_instance env table iid u).headers = apiHeaders := by
  unfold InstancesFn.get_instance
  repeat' split
  all_goals rfl

lemma instancesLogsHeaders (env : InstancesFn.Env) (table : List InstanceRec)
    (iid : String) (u : UserInfo) :
    (InstancesFn.get_instance_logs env table iid u).headers = apiHeaders := by
  unfold InstancesFn.get_instance_logs
  repeat' split
  all_goals rfl

lemma instancesStatusHeaders (env : InstancesFn.Env) (table : List InstanceRec)
    (iid : String) (u : UserInfo) :
    (InstancesFn.get_instance_status env table iid u).fst.headers = apiHeaders := by
  unfold InstancesFn.get_instance_status
  repeat' split
  all_goals rfl

lemma modelsListHeaders (models : List ModelsFn.ModelRec) :
    (ModelsFn.list_models models).headers = apiHeaders := rfl

lemma modelsStartHeaders (env : ModelsFn.Env) (models : List ModelsFn.ModelRec)
    (instances : List InstanceRec) (body : Except Unit ModelsFn.StartBody)
    (u : UserInfo) :
    (ModelsFn.start_model env models instances body u).resp.headers = apiHeaders := by
  unfold ModelsFn.start_model
  repeat' split
  all_goals rfl

lemma modelsStopHeaders (env : ModelsFn.Env) (table : List InstanceRec)
    (iid : String) (u : UserInfo) :
    (ModelsFn.stop_model env table iid u).fst.headers = apiHeaders := by
  unfold ModelsFn.stop_model
  repeat' split
  all_goals rfl

lemma tasksListHeaders (instances : List TasksFn.TaskInstanceRec)
    (u : TasksFn.TUserInfo) :
    (TasksFn.list_instances instances u).headers = TasksFn.cors_headers := rfl

lemma tasksCreateHeaders (env : TasksFn.Env) (models : List TasksFn.TaskModelRec)
    (instances : List TasksFn.TaskInstanceRec)
    (body : Except String TasksFn.CreateBody) (u : TasksFn.TUserInfo) :
    (TasksFn.create_instance env models instances body u).resp.headers =
      TasksFn.cors_headers := by
  unfold TasksFn.create_instance
  repeat' split
  all_goals rfl

lemma tasksDeleteHeaders (env : TasksFn.Env)
    (instances : List TasksFn.TaskInstanceRec) (iid : String)
    (u : TasksFn.TUserInfo) :
    (TasksFn.delete_instance env instances iid u).fst.headers =
      TasksFn.cors_headers := by
  unfold TasksFn.delete_instance
  repeat' split
  all_goals rfl

lemma tasksGetHeaders (env : TasksFn.Env)
    (instances : List TasksFn.TaskInstanceRec) (iid : String)
    (u : TasksFn.TUserInfo) :
    (TasksFn.get_instance env instances iid u).fst.headers =
      TasksFn.cors_headers := by
  unfold TasksFn.get_instance
  repeat' split
  all_goals rfl

end AwsOllama

namespace AwsOllama

lemma instancesHandlerHeaders (env : InstancesFn.Env) (table : List InstanceRec)
    (ev : InstancesFn.Event) :
    (InstancesFn.lambda_handler env table ev).fst.headers = apiHeaders := by
  unfold InstancesFn.lambda_handler
  split
  · dsimp only
    repeat' split
    · exact instancesListHeaders _ _ _
    · exact instancesGetHeaders _ _ _ _
    · exact instancesLogsHeaders _ _ _ _
    · exact instancesStatusHeaders _ _ _ _
    · rfl
  · rfl

lemma modelsHandlerHeaders (env : ModelsFn.Env) (models : List ModelsFn.ModelRec)
    (instances : List InstanceRec) (ev : ModelsFn.Event) :
    (ModelsFn.lambda_handler env models instances ev).fst.headers = apiHeaders := by
  unfold ModelsFn.lambda_handler
  split
  · dsimp only
    repeat' split
    · exact modelsListHeaders _
    · exact modelsStartHeaders _ _ _ _ _
    · exact modelsStopHeaders _ _ _ _
    · rfl
  · rfl

lemma tasksHandlerHeaders (env : TasksFn.Env) (models : List TasksFn.TaskModelRec)
    (instances : List TasksFn.TaskInstanceRec) (ev : TasksFn.Event) :
    (TasksFn.lambda_handler env models instances ev).fst.headers =
      TasksFn.cors_headers := by
  unfold TasksFn.lambda_handler
  split
  · dsimp only
    repeat' split
    · exact tasksListHeaders _ _
    · exact tasksCreateHeaders _ _ _ _ _
    · exact tasksDeleteHeaders _ _ _ _
    · exact tasksGetHeaders _ _ _ _
    · rfl
  · rfl
  · rfl

/-- C7: every handler invocation returns a structured response carrying
the module's fixed header set, and malformed routing input (a missing
`httpMethod` or `path` key) yields the uniform 500 error envelope on all
three handlers. -/
theorem c7_handlers_total
    (ienv : InstancesFn.Env) (itable : List InstanceRec) (iev : InstancesFn.Event)
    (menv : ModelsFn.Env) (models : List ModelsFn.ModelRec)
    (minsts : List InstanceRec) (mev : ModelsFn.Event)
    (tenv : TasksFn.Env) (tmodels : List TasksFn.TaskModelRec)
    (tinsts : List TasksFn.TaskInstanceRec) (tev : TasksFn.Event) :
    (InstancesFn.lambda_handler ienv itable iev).fst.headers = apiHeaders ∧
    (ModelsFn.lambda_handler menv models minsts mev).fst.headers = apiHeaders ∧
    (TasksFn.lambda_handler tenv tmodels tinsts tev).fst.headers =
      TasksFn.cors_headers ∧
    (iev.httpMethod = none ∨ iev.path = none →
      (InstancesFn.lambda_handler ienv itable iev).fst =
        InstancesFn.create_error_response 500 "Internal server error") ∧
    (mev.httpMethod = none ∨ mev.path = none →
      (ModelsFn.lambda_handler menv models minsts mev).fst =
        ModelsFn.create_error_response 500 "Internal server error") ∧
    (tev.httpMethod = none ∨ tev.path = none →
      (TasksFn.lambda_handler tenv tmodels tinsts tev).fst.statusCode = 500 ∧
      ∃ msg, (TasksFn.lambda_handler tenv tmodels tinsts tev).fst.body =
        some (TasksFn.Body.errorMsgB "Internal server error" msg)) := by
  refine ⟨instancesHandlerHeaders _ _ _, modelsHandlerHeaders _ _ _ _,
    tasksHandlerHeaders _ _ _ _, ?_, ?_, ?_⟩
  · intro h
    rcases h with h | h
    · unfold InstancesFn.lambda_handler
      rw [h]
    · unfold InstancesFn.lambda_handler
      rw [h]
      all_goals cases iev.httpMethod <;> rfl
  · intro h
    rcases h with h | h
    · unfold ModelsFn.lambda_handler
      rw [h]
    · unfold ModelsFn.lambda_handler
      rw [h]
      all_goals cases mev.httpMethod <;> rfl
  · intro h
    rcases h with h | h
    · refine ⟨?_, "httpMethod", ?_⟩ <;>
        (unfold TasksFn.lambda_handler; rw [h]; cases tev.path <;> rfl)
    · unfold TasksFn.lambda_handler
      rw [h]
      cases hm : tev.httpMethod
      · exact ⟨rfl, "httpMethod", rfl⟩
      · exact ⟨rfl, "path", rfl⟩

/-- Concrete malformed events for the C7 witness. -/
def c7IEvent : InstancesFn.Event :=
  { httpMethod := none, path := some "/instances"
    claims := { sub := some "alice", email := none, username := none
                groupsRaw := "" } }

def c7MEvent : ModelsFn.Event :=
  { httpMethod := none, path := some "/models"
    claims := { sub := some "alice", email := none, username := none
                groupsRaw := "" }
    startBody := Except.error () }

def c7TEvent : TasksFn.Event :=
  { httpMethod := none, path := some "/instances"
    claims := { sub := some "alice", email := none, username := none
                groupsRaw := "" }
    createBody := Except.error "malformed" }

/-- Witness for C7 at concrete events lacking an `httpMethod` key. -/
theorem c7_handlers_total_witness :
    (InstancesFn.lambda_handler c2Env [] c7IEvent).fst.headers = apiHeaders ∧
    (ModelsFn.lambda_handler c2MEnv [] [] c7MEvent).fst.headers = apiHeaders ∧
    (TasksFn.lambda_handler c4TEnv [] [] c7TEvent).fst.headers =
      TasksFn.cors_headers ∧
    (c7IEvent.httpMethod = none ∨ c7IEvent.path = none →
      (InstancesFn.lambda_handler c2Env [] c7IEvent).fst =
        InstancesFn.create_error_response 500 "Internal server error") ∧
    (c7MEvent.httpMethod = none ∨ c7MEvent.path = none →
      (ModelsFn.lambda_handler c2MEnv [] [] c7MEvent).fst =
        ModelsFn.create_error_response 500 "Internal server error") ∧
    (c7TEvent.httpMethod = none ∨ c7TEvent.path = none →
      (TasksFn.lambda_handler c4TEnv [] [] c7TEvent).fst.statusCode = 500 ∧
      ∃ msg, (TasksFn.lambda_handler c4TEnv [] [] c7TEvent).fst.body =
        some (TasksFn.Body.errorMsgB "Internal server error" msg)) :=
  c7_handlers_total c2Env [] c7IEvent c2MEnv [] [] c7MEvent c4TEnv [] [] c7TEvent

end AwsOllama
